import Mathlib

/-!
Verification of the AI-Powered Job Recommendation System backend
(`src/Lambda-Functions/`): a shallow embedding of the document model,
the index-store write/read/query operations (`opensearch_manager.py`),
the embedding provider adapter (`embedding_service.py`), the job id
generation (`job_scraper.py`) and the recommendation handler
(`Lambda_function-1.py`), with theorems settling the specified
properties of each.

Python dictionaries/JSON bodies are embedded as association lists of
`String × JVal`; Python floats are embedded as rationals; Python
exceptions become `Except String`; the OpenSearch client is embedded as
explicit state (index contents, version string, failure flags) passed to
each operation.
-/

namespace JobRec

/-- JSON-like runtime values, mirroring what the Python code stores in
document fields: `None`, booleans, numbers (int/float, embedded as `ℚ`),
strings, arrays and nested objects. -/
inductive JVal where
  | vnull : JVal
  | vbool : Bool → JVal
  | vnum : ℚ → JVal
  | vstr : String → JVal
  | vlist : List JVal → JVal
  | vobj : List (String × JVal) → JVal

/-- A document body: a Python dict with string keys (association list,
keys assumed unique, first binding wins on lookup). -/
abbrev Document := List (String × JVal)

/-- `d.get(k)` on a Python dict: the value bound to `k`, if any. -/
def Document.get (d : Document) (k : String) : Option JVal :=
  (d.find? (fun p => p.1 == k)).map (fun p => p.2)

/-- `k in d` on a Python dict. -/
def Document.hasField (d : Document) (k : String) : Bool :=
  (d.find? (fun p => p.1 == k)).isSome

/-- Removing a key (`del d[k]`, or a dict comprehension filtering the
key out, as the cv path of the index store does). -/
def Document.erase (d : Document) (k : String) : Document :=
  d.filter (fun p => !(p.1 == k))

/-- `d[k] = v` on a Python dict: replace the binding if present,
otherwise append it. -/
def Document.set (d : Document) (k : String) (v : JVal) : Document :=
  if d.hasField k then
    d.map (fun p => if p.1 == k then (k, v) else p)
  else
    d ++ [(k, v)]

/-- `d.get(k, default)`. -/
def Document.getD (d : Document) (k : String) (default : JVal) : JVal :=
  (d.get k).getD default

/-- Python truthiness of a field value (`if not embedding: ...`):
`None`, `False`, `0`, the empty string, the empty list and the
empty dict are falsy. -/
def pyTruthy : JVal → Bool
  | .vnull => false
  | .vbool b => b
  | .vnum q => !(q == 0)
  | .vstr s => !(s == "")
  | .vlist xs => !xs.isEmpty
  | .vobj fs => !fs.isEmpty

/-- `len(v)` for values that support it (`list`, `str`, `dict`);
`none` models the `TypeError` raised on other values. -/
def pyLen : JVal → Option Nat
  | .vlist xs => some xs.length
  | .vstr s => some s.length
  | .vobj fs => some fs.length
  | _ => none

/-- `isinstance(x, (int, float)) and x is not None` on an entry of an
embedding list.  Note the Python bool type is a subclass of int, so boolean
entries pass this check; `None` is neither, so the `is not None` clause
is redundant in the source and here. -/
def isPyNumeric : JVal → Bool
  | .vnum _ => true
  | .vbool _ => true
  | _ => false

/-- The comprehensive embedding validation of
`OpenSearchManager.index_job_document` (opensearch_manager.py:175-180):
the value must be a non-`None` list, non-empty, with every entry
numeric. -/
def validEmbeddingVal : JVal → Bool
  | .vlist xs => !xs.isEmpty && xs.all isPyNumeric
  | _ => false

/-- Outcome of one physical `client.index(...)` call against the store.
A rejection carries whether its message would look embedding-related to
the retry test in opensearch_manager.py:220 (`"job_embedding" in str(e)
or "knn_vector" in str(e) or "null" in str(e)`), plus the message. -/
inductive WriteOutcome where
  | accept : WriteOutcome
  | reject : Bool → String → WriteOutcome

/-- `OpenSearchManager.index_cv_document` (opensearch_manager.py:89-117).
Validates required fields, strips the `cv_embedding` field exactly when
the value is falsy (`not embedding or len(embedding) == 0`; the second
disjunct is unreachable for a truthy sized value, and `len` on a truthy
value without a length raises), then writes.  Returns the document body
actually written to the store on success. -/
def index_cv_document (write : Document → WriteOutcome) (doc : Document) :
    Except String Document :=
  if !doc.hasField "user_id" then
    .error "Missing required field: user_id"
  else if !doc.hasField "cv_text" then
    .error "Missing required field: cv_text"
  else
    let docW : Except String Document :=
      match doc.get "cv_embedding" with
      | some v =>
        if !pyTruthy v then
          .ok (doc.erase "cv_embedding")
        else
          match pyLen v with
          | some n => if n == 0 then .ok (doc.erase "cv_embedding") else .ok doc
          | none => .error "TypeError: object has no len()"
      | none => .ok doc
    match docW with
    | .error e => .error e
    | .ok d =>
      match write d with
      | .accept => .ok d
      | .reject _ msg => .error msg

/-- `OpenSearchManager.index_job_document` (opensearch_manager.py:155-239).
Deep-copies the input, strips the `job_embedding` field whenever it
fails the comprehensive validation (recording
embedding_status = "invalid_embedding_removed"), writes, and on an
embedding-related store rejection retries once with the embedding field
removed from the ORIGINAL document
(embedding_status = "removed_due_to_indexing_error").  Returns the
document body actually written on success. -/
def index_job_document (write : Document → WriteOutcome) (doc : Document) :
    Except String Document :=
  let d :=
    match doc.get "job_embedding" with
    | some v =>
      if !validEmbeddingVal v then
        (doc.erase "job_embedding").set "embedding_status"
          (.vstr "invalid_embedding_removed")
      else doc
    | none => doc
  match write d with
  | .accept => .ok d
  | .reject embeddingRelated msg =>
    if embeddingRelated then
      let dr := (doc.erase "job_embedding").set "embedding_status"
        (.vstr "removed_due_to_indexing_error")
      match write dr with
      | .accept => .ok dr
      | .reject _ retryMsg => .error retryMsg
    else .error msg

/-! ### Index store reads and similarity search (`opensearch_manager.py`) -/

/-- `val is None` on a field value. -/
def isNullVal : JVal → Bool
  | .vnull => true
  | _ => false

/-- Observable behaviour of the cv index for one
`get_cv_by_user_id` call: the outcome of the `indices.exists` check and
the outcome of the term-query search (the `_source` documents of its
hits, before projection); `Except.error` models a raised exception
(for example an unreachable store). -/
structure CvStore where
  indexCheck : Except String Bool
  searchOutcome : Except String (List Document)

/-- `OpenSearchManager.get_cv_by_user_id` (opensearch_manager.py:119-153).
Returns `none` when the cv index is missing, when the search finds no
hit, or when ANY step raises — the enclosing `except` returns `None` —
and otherwise the first hit with the large `cv_text` field excluded by
the `_source` projection of the query. -/
def get_cv_by_user_id (st : CvStore) : Option Document :=
  match st.indexCheck with
  | .error _ => none
  | .ok false => none
  | .ok true =>
    match st.searchOutcome with
    | .error _ => none
    | .ok [] => none
    | .ok (h :: _) => some (h.erase "cv_text")

/-- OpenSearch field-existence semantics for the
exists filter on a field: a field exists when it is present
with a non-null value; an explicit `null`, and an array with no
non-null element, count as missing. -/
def esFieldExists (d : Document) (k : String) : Bool :=
  match d.get k with
  | none => false
  | some .vnull => false
  | some (.vlist xs) => xs.any (fun v => !isNullVal v)
  | some _ => true

/-- The write-path invariant of job documents (established by
`index_job_document`): a present `job_embedding` field passed the
comprehensive validation. -/
def embInvariant (d : Document) : Bool :=
  match d.get "job_embedding" with
  | some v => validEmbeddingVal v
  | none => true

/-- The source tests whether the version string starts with "2." or "3."
(opensearch_manager.py:251): the capability check that decides whether
the engine supports the native KNN vector query. -/
def versionSupportsKnn (v : String) : Bool :=
  List.isPrefixOf "2.".toList v.toList || List.isPrefixOf "3.".toList v.toList

/-- One search hit as the handler consumes it: `_id`, `_score` and the
projected `_source` document. -/
structure Hit where
  hid : String
  score : ℚ
  source : Document

/-- The search response surface the handler reads: the hit list,
`hits.total.value` and `took`. -/
structure SearchResp where
  hits : List Hit
  total : Nat
  took : Nat

/-- Observable behaviour of the job index for one `search_similar_jobs`
call: the engine version string, the stored documents of the job index
in store order (with their ids), the similarity score the KNN engine
assigns each stored document against the query vector of this call
(abstract: the engine scoring function is external), and failure flags
for the `client.info()` capability check, the primary search call and
the fallback search call. -/
structure EngineState where
  version : String
  docs : List (String × Document)
  knnScore : Document → ℚ
  infoFails : Bool
  searchFails : Bool
  fallbackFails : Bool

/-- Hits of the KNN query path (opensearch_manager.py:253-275): the
bool query filters to documents whose `job_embedding` field exists, the
KNN clause ranks them by engine similarity, the top `size` are
returned, and the `_source` projection excludes `job_embedding`. -/
def knnHits (st : EngineState) (size : Nat) : List Hit :=
  (((st.docs.filter (fun p => esFieldExists p.2 "job_embedding")).insertionSort
      (fun a b => st.knnScore b.2 ≤ st.knnScore a.2)).take size).map
    (fun p => ⟨p.1, st.knnScore p.2, p.2.erase "job_embedding"⟩)

/-- Hits of the pre-2.x basic path (opensearch_manager.py:277-290): the
query only requires `job_embedding` to exist (constant relevance score
1.0, store order), takes `size` documents and excludes the embedding
from the projection. -/
def existsHits (st : EngineState) (size : Nat) : List Hit :=
  ((st.docs.filter (fun p => esFieldExists p.2 "job_embedding")).take size).map
    (fun p => ⟨p.1, 1, p.2.erase "job_embedding"⟩)

/-- Hits of the last-resort fallback (opensearch_manager.py:297-304):
`match_all` (every document matches with score 1.0, store order), takes
`size` documents and excludes the embedding from the projection. -/
def matchAllHits (st : EngineState) (size : Nat) : List Hit :=
  ((st.docs.take size).map (fun p => ⟨p.1, 1, p.2.erase "job_embedding"⟩))

/-- Number of documents matched by the `exists job_embedding` filter. -/
def countWithEmbedding (st : EngineState) : Nat :=
  (st.docs.filter (fun p => esFieldExists p.2 "job_embedding")).length

/-- The body of the `try` block of
`OpenSearchManager.search_similar_jobs` (opensearch_manager.py:243-292):
the emptiness guard, the capability check and the version-selected
primary query. -/
def searchPrimary (st : EngineState) (emb : JVal) (size : Nat) :
    Except String SearchResp :=
  if !pyTruthy emb then .error "CV embedding is empty"
  else
    match pyLen emb with
    | none => .error "TypeError: object has no len()"
    | some _ =>
      if st.infoFails then .error "cluster info unavailable"
      else if st.searchFails then .error "search request failed"
      else if versionSupportsKnn st.version then
        .ok ⟨knnHits st size, countWithEmbedding st, 0⟩
      else
        .ok ⟨existsHits st size, countWithEmbedding st, 0⟩

/-- `OpenSearchManager.search_similar_jobs` (opensearch_manager.py:241-307).
The whole body is inside one `try`: an empty (falsy) query embedding
raises a ValueError that the enclosing `except` catches, like any
failure of the capability check or of the primary search, and the
function then degrades to the basic `match_all` fallback search; only
when that fallback also fails is the original exception re-raised. -/
def search_similar_jobs (st : EngineState) (emb : JVal) (size : Nat) :
    Except String SearchResp :=
  match searchPrimary st emb size with
  | .ok resp => .ok resp
  | .error e =>
    if st.fallbackFails then .error e
    else .ok ⟨matchAllHits st size, st.docs.length, 0⟩

/-! ### Embedding provider adapter (`embedding_service.py`)

Texts are embedded as `List Char` so that slicing and trimming allow
direct proofs. -/

/-- A Python text. -/
abbrev PyStr := List Char

/-- The whitespace characters stripped by the Python `str.strip`
default. -/
def isPySpace (c : Char) : Bool :=
  c == ' ' || c == '\t' || c == '\n' || c == '\r' || c == '\x0b' || c == '\x0c'

/-- `text.strip()`: drop whitespace from both ends. -/
def pyStrip (s : PyStr) : PyStr :=
  ((s.dropWhile isPySpace).reverse.dropWhile isPySpace).reverse

/-- The input validation and truncation of
`EmbeddingService.generate_embedding` (embedding_service.py:115-124):
reject empty text and text whose trimmed form is shorter than 5
characters; otherwise submit the trimmed text, truncated to its first
8000 characters plus a trailing "..." marker when longer than 8000. -/
def prepare_text (text : PyStr) : Except String PyStr :=
  if text.isEmpty || (pyStrip text).length < 5 then
    .error "Text too short for embedding generation"
  else if (pyStrip text).length > 8000 then
    .ok ((pyStrip text).take 8000 ++ "...".toList)
  else
    .ok (pyStrip text)

/-- Observable behaviour of the Bedrock endpoint: for a model id, a
submitted text and an attempt index, the raw `embedding` field of the
response; `none` models a raised call error or a response with no
embedding field. -/
abbrev Bedrock := String → PyStr → Nat → Option JVal

/-- One attempt of `EmbeddingService._call_bedrock`
(embedding_service.py:46-102): call the endpoint and validate the raw
result (must be a list, non-empty, free of null entries, every entry
numeric — exactly `validEmbeddingVal`); `none` when the attempt raises
or the validation fails. -/
def bedrockAttempt (oracle : Bedrock) (model : String) (text : PyStr)
    (attempt : Nat) : Option (List JVal) :=
  match oracle model text attempt with
  | some (.vlist xs) => if validEmbeddingVal (.vlist xs) then some xs else none
  | _ => none

/-- The retry loop of `EmbeddingService._call_bedrock`
(embedding_service.py:45-110), with `remaining` attempts left and the
current attempt index: a failed non-final attempt sleeps `2 ^ attempt`
seconds (exponential backoff, recorded in the returned trace) and
retries; the final failure re-raises. -/
def callBedrockGo (oracle : Bedrock) (model : String) (text : PyStr) :
    Nat → Nat → Except String (List JVal) × List Nat
  | 0, _ => (.error "Bedrock call made no attempts", [])
  | remaining + 1, attempt =>
    match bedrockAttempt oracle model text attempt with
    | some xs => (.ok xs, [])
    | none =>
      if remaining == 0 then
        (.error "All attempts failed", [])
      else
        let r := callBedrockGo oracle model text remaining (attempt + 1)
        (r.1, 2 ^ attempt :: r.2)

/-- `EmbeddingService._call_bedrock(model_id, text, max_retries=3)`:
result plus the trace of backoff sleeps. -/
def call_bedrock (oracle : Bedrock) (model : String) (text : PyStr)
    (maxRetries : Nat) : Except String (List JVal) × List Nat :=
  callBedrockGo oracle model text maxRetries 0

/-- The model id preference list of the service constructor
(embedding_service.py:15-18): the v2 Titan model first, the v1 model as
fallback. -/
def model_ids : List String :=
  ["amazon.titan-embed-text-v2:0", "amazon.titan-embed-text-v1"]

/-- The model discovery loop of the service constructor
(embedding_service.py:24-41) over a list of candidate model ids: each
candidate is probed with `_call_bedrock(model_id, "test")` (3 attempts
with backoff); the first that returns a truthy embedding becomes the
current model, with its length as the discovered dimensionality; if
every candidate fails the constructor raises. -/
def chooseModelFrom (oracle : Bedrock) : List String → Except String (String × Nat)
  | [] => .error "No Titan embedding model available"
  | m :: rest =>
    match (call_bedrock oracle m "test".toList 3).1 with
    | .ok xs => if xs.isEmpty then chooseModelFrom oracle rest else .ok (m, xs.length)
    | .error _ => chooseModelFrom oracle rest

/-- The model discovery of the service constructor, run once at
service construction: discovers `current_model` and `embedding_dims`. -/
def chooseModel (oracle : Bedrock) : Except String (String × Nat) :=
  chooseModelFrom oracle model_ids

/-- The state the service holds after construction
(embedding_service.py:20-22). -/
structure ServiceState where
  current_model : String
  embedding_dims : Option Nat

/-- `EmbeddingService.generate_embedding` (embedding_service.py:112-167).
Validates and truncates the text, then calls `_call_bedrock` with the
ALREADY SELECTED `current_model` only — no other model id is consulted
on this path — and re-validates the result (falsy, non-list, empty,
null-entry and non-numeric-entry checks; a dimension mismatch against
`embedding_dims` is only logged, never fatal). -/
def generate_embedding (oracle : Bedrock) (st : ServiceState) (text : PyStr) :
    Except String (List JVal) :=
  match prepare_text text with
  | .error e => .error e
  | .ok t =>
    match (call_bedrock oracle st.current_model t 3).1 with
    | .error e => .error e
    | .ok emb =>
      if emb.isEmpty then .error "Generated embedding is falsy"
      else if emb.any isNullVal then
        .error "Generated embedding contains None values"
      else if !(emb.all isPyNumeric) then
        .error "Generated embedding contains non-numeric values"
      else .ok emb

/-! ### Job id generation (`job_scraper.py`) -/

/-- `s.lower()` on a text. -/
def pyLower (s : PyStr) : PyStr := s.map Char.toLower

/-- `JobScraper._generate_job_id` (job_scraper.py:357-360): the
case-folded `title_company_unique` concatenation is hashed and the hex
digest truncated to 16 characters.  The hash itself (`hashlib.md5(...)
.hexdigest()`, a pure library function producing 32 hex characters) is
a parameter, so every theorem below holds for the real digest
function. -/
def generate_job_id (hash : PyStr → PyStr)
    (title company unique_str : PyStr) : PyStr :=
  (hash (pyLower (title ++ ('_' :: company) ++ ('_' :: unique_str)))).take 16

/-- The listing fields `JobScraper._extract_job_from_card` has in hand
when it generates the id (job_scraper.py:267-351). -/
structure RawCard where
  title : PyStr
  company : PyStr
  job_url : PyStr
  description : PyStr

/-- The id assignment of `_extract_job_from_card` (job_scraper.py:341):
`self._generate_job_id(title, company, job_url or title)` — the url
when non-empty, otherwise the title; the description never reaches the
id. -/
def card_job_id (hash : PyStr → PyStr) (c : RawCard) : PyStr :=
  generate_job_id hash c.title c.company
    (if c.job_url.isEmpty then c.title else c.job_url)

/-! ### Recommendation handler (`Lambda_function-1.py`) -/

/-- Python `int(...)` on a number: truncation toward zero. -/
def pyInt (q : ℚ) : ℤ :=
  if q < 0 then ⌈q⌉ else ⌊q⌋

/-- The match percentage of the recommendation handler
(Lambda_function-1.py:358):
`min(100, max(0, int(similarity_score * 10)))`. -/
def matchPercentage (score : ℚ) : ℤ :=
  min 100 (max 0 (pyInt (score * 10)))

/-- An API Gateway response as built by `create_api_response`: status
code plus JSON body (the constant CORS headers are not modelled). -/
structure ApiResp where
  statusCode : Nat
  body : Document

/-- The display record assembled per hit
(Lambda_function-1.py:353-375), with the sentinel defaults of the
source for every missing optional field. -/
def mkRecommendation (h : Hit) : Document :=
  [("job_id", h.source.getD "job_id" (.vstr h.hid)),
   ("title", h.source.getD "title" (.vstr "Job Title Not Available")),
   ("company", h.source.getD "company" (.vstr "Company Name Not Available")),
   ("description", h.source.getD "description" (.vstr "No description available")),
   ("location", h.source.getD "location" (.vstr "Location not specified")),
   ("job_url", h.source.getD "job_url" (.vstr "")),
   ("skills_required", h.source.getD "skills_required" (.vlist [])),
   ("experience_level", h.source.getD "experience_level" (.vstr "Not specified")),
   ("salary_range", h.source.getD "salary_range" (.vstr "Not specified")),
   ("match_percentage", .vnum (matchPercentage h.score : ℚ)),
   ("similarity_score", .vnum h.score),
   ("scraped_date", (h.source.get "scraped_date").getD .vnull)]

/-- The external state one recommendation request consumes: the cv
store behaviour seen by `get_cv_by_user_id` and the job index behaviour
seen by `search_similar_jobs`. -/
structure RecoEnv where
  cvStore : CvStore
  engine : EngineState

/-- `handle_recommendation_request` (Lambda_function-1.py:312-400),
with `user_id` the (possibly missing) field of the parsed request body.
Paths, in source order: missing/falsy user_id → 400; cv lookup returns
None → 404 with upload guidance; cv present but `cv_embedding` falsy →
400 with re-upload guidance; similarity search raises → the enclosing
`except` → 500; zero hits → 404 with an explicit empty recommendations
list; otherwise 200 with the assembled recommendation records, profile
summary and search metadata. -/
def handle_recommendation_request (env : RecoEnv) (user_id : Option String) :
    ApiResp :=
  match user_id with
  | none => ⟨400, [("error", .vstr "user_id is required")]⟩
  | some uid =>
    if uid == "" then ⟨400, [("error", .vstr "user_id is required")]⟩
    else
      match get_cv_by_user_id env.cvStore with
      | none =>
        ⟨404, [("error", .vstr "CV not found for this user. Please upload your CV first."),
               ("user_id", .vstr uid)]⟩
      | some cvResult =>
        let cvEmb := (cvResult.get "cv_embedding").getD .vnull
        if !pyTruthy cvEmb then
          ⟨400, [("error", .vstr "CV embedding not available. Please re-upload your CV."),
                 ("user_id", .vstr uid)]⟩
        else
          match search_similar_jobs env.engine cvEmb 10 with
          | .error e =>
            ⟨500, [("error", .vstr ("Failed to get recommendations: " ++ e))]⟩
          | .ok resp =>
            if resp.hits.isEmpty then
              ⟨404, [("message", .vstr "No matching jobs found at the moment."),
                     ("user_id", .vstr uid),
                     ("recommendations", .vlist [])]⟩
            else
              ⟨200, [("user_id", .vstr uid),
                     ("total_recommendations", .vnum (resp.hits.length : ℚ)),
                     ("user_profile", .vobj
                       [("skills_extracted", cvResult.getD "skills_extracted" (.vlist [])),
                        ("experience_years", cvResult.getD "experience_years" (.vnum 0)),
                        ("job_title", cvResult.getD "job_title" (.vstr "Not specified"))]),
                     ("recommendations", .vlist ((resp.hits.map mkRecommendation).map .vobj)),
                     ("search_metadata", .vobj
                       [("total_jobs_in_database", .vnum (resp.total : ℚ)),
                        ("search_took_ms", .vnum (resp.took : ℚ))])]⟩

/-! ### Concrete fixtures used by witnesses and counterexamples -/

/-- A store that accepts every write. -/
def acceptAll : Document → WriteOutcome := fun _ => .accept

/-- A cv document whose embedding field holds a null entry. -/
def cvDocNull : Document :=
  [("user_id", .vstr "u1"), ("cv_text", .vstr "some text"),
   ("cv_embedding", .vlist [.vnull])]

/-- A cv document whose embedding field is an empty list. -/
def cvDocEmpty : Document :=
  [("user_id", .vstr "u1"), ("cv_text", .vstr "some text"),
   ("cv_embedding", .vlist [])]

/-- The cv document that the store receives for `cvDocEmpty`. -/
def cvDocEmptyStored : Document :=
  [("user_id", .vstr "u1"), ("cv_text", .vstr "some text")]

/-- A job document with a valid one-dimensional embedding. -/
def jobDocValid : Document :=
  [("job_id", .vstr "j1"), ("title", .vstr "engineer"),
   ("job_embedding", .vlist [.vnum 1])]

/-- A job posting scraped earlier (scraped_date 1), stored first. -/
def dOld : Document :=
  [("job_id", .vstr "old"), ("scraped_date", .vnum 1),
   ("job_embedding", .vlist [.vnum 1])]

/-- A job posting scraped later (scraped_date 2), stored second. -/
def dNew : Document :=
  [("job_id", .vstr "new"), ("scraped_date", .vnum 2),
   ("job_embedding", .vlist [.vnum 2])]

/-- A job index on an engine version without KNN support, no failures,
holding the older posting before the newer one. -/
def stOldVersion : EngineState :=
  ⟨"1.0.0", [("a", dOld), ("b", dNew)], fun _ => 1, false, false, false⟩

/-- A job index on a KNN-capable engine: the two embedded postings plus
one posting without an embedding; scoring reads the scraped date so the
ranking is observable. -/
def stKnn : EngineState :=
  ⟨"2.11.0",
   [("a", dOld), ("b", dNew), ("c", [("job_id", .vstr "noemb")])],
   fun d => match d.get "scraped_date" with | some (.vnum q) => q | _ => 0,
   false, false, false⟩

/-- A KNN-capable job index whose capability check raises. -/
def stInfoDown : EngineState :=
  ⟨"2.11.0", [("a", dOld), ("b", dNew)], fun _ => 1, true, false, false⟩

/-- The `_source` documents of the hits of a search outcome (empty on a
raised search). -/
def hitsSources : Except String SearchResp → List Document
  | .ok r => r.hits.map (fun h => h.source)
  | .error _ => []

/-- A cv store holding one candidate with a usable embedding. -/
def cvStoreOk : CvStore :=
  ⟨.ok true, .ok [[("user_id", .vstr "u1"), ("cv_embedding", .vlist [.vnum 1])]]⟩

/-- A cv store holding one candidate without any embedding field. -/
def cvStoreNoEmb : CvStore :=
  ⟨.ok true, .ok [[("user_id", .vstr "u1")]]⟩

/-- A cv store whose search raises (unreachable index store). -/
def cvStoreDown : CvStore :=
  ⟨.error "ConnectionError: index store unreachable", .ok []⟩

/-- A KNN-capable engine whose job index is empty. -/
def engineEmpty : EngineState :=
  ⟨"2.11.0", [], fun _ => 1, false, false, false⟩

/-- Candidate found, usable embedding, but zero similarity hits. -/
def envZeroHits : RecoEnv := ⟨cvStoreOk, engineEmpty⟩

/-- Candidate found but without a usable embedding. -/
def envNoEmbedding : RecoEnv := ⟨cvStoreNoEmb, engineEmpty⟩

/-- Candidate lookup hits an unreachable store. -/
def envStoreDown : RecoEnv := ⟨cvStoreDown, engineEmpty⟩

/-- A Bedrock endpoint on which the primary (v2) model always fails and
the secondary (v1) model always succeeds. -/
def bedrockV2Down : Bedrock := fun m _ _ =>
  if m == "amazon.titan-embed-text-v1" then some (.vlist [.vnum 1, .vnum 2])
  else none

/-- A Bedrock endpoint that always fails. -/
def bedrockDown : Bedrock := fun _ _ _ => none

/-- A service that already selected the v2 model at construction. -/
def serviceOnV2 : ServiceState := ⟨"amazon.titan-embed-text-v2:0", some 2⟩

/-- A stand-in digest function with the md5 hexdigest output length. -/
def hash32 : PyStr → PyStr := fun _ => "0123456789abcdef0123456789abcdef".toList

/-- Two scraped cards identical except for their descriptions. -/
def cardA : RawCard :=
  ⟨"Engineer".toList, "Acme".toList, "/jobs/1".toList, "first description".toList⟩

/-- See `cardA`. -/
def cardB : RawCard :=
  ⟨"Engineer".toList, "Acme".toList, "/jobs/1".toList, "another description".toList⟩

/-! ### The refinement comparandum for the degraded search paths

Modelled from the spec words, for comparison with the source behaviour:
the `limit` most-recently-scraped job postings, embeddings excluded. -/

/-- The scraped_date ordering key of a stored posting. -/
def scrapedDateOf (d : Document) : ℚ :=
  match d.get "scraped_date" with
  | some (.vnum q) => q
  | _ => 0

/-- Modelled from the spec: "degrade to returning the limit
most-recently-scraped job postings with embeddings excluded from the
projection" — postings sorted by scraped date, newest first, truncated
to the limit, embedding field excluded. -/
def mostRecentlyScraped (docs : List (String × Document)) (limit : Nat) :
    List Document :=
  (((docs.map (fun p => p.2)).insertionSort
      (fun a b => scrapedDateOf b ≤ scrapedDateOf a)).take limit).map
    (fun d => d.erase "job_embedding")

/-! ### Helper lemmas on documents -/

theorem get_erase (d : Document) (k : String) : (d.erase k).get k = none := by
  unfold Document.erase Document.get
  rw [List.find?_filter]
  have hnone :
      List.find? (fun a : String × JVal =>
        decide ((!(a.1 == k)) = true ∧ (a.1 == k) = true)) d = none := by
    rw [List.find?_eq_none]
    intro x _
    simp
  rw [hnone]
  rfl

theorem hasField_eq_isSome_get (d : Document) (k : String) :
    d.hasField k = (d.get k).isSome := by
  simp [Document.hasField, Document.get]

theorem hasField_erase (d : Document) (k : String) :
    (d.erase k).hasField k = false := by
  rw [hasField_eq_isSome_get, get_erase]
  rfl

theorem get_set_ne (d : Document) (k k' : String) (v : JVal) (h : k ≠ k') :
    (d.set k' v).get k = d.get k := by
  unfold Document.set
  by_cases hf : d.hasField k'
  · simp only [hf, if_true]
    unfold Document.get
    rw [List.find?_map]
    have hpred :
        ((fun p : String × JVal => p.1 == k) ∘
          fun p : String × JVal => if p.1 == k' then (k', v) else p) =
        fun p : String × JVal => p.1 == k := by
      funext p
      by_cases hp : p.1 = k'
      · simp [Function.comp, hp, Ne.symm h, (h.symm : ¬ k' = k)]
      · simp [Function.comp, hp]
    rw [hpred]
    cases hfind : List.find? (fun p : String × JVal => p.1 == k) d with
    | none => rfl
    | some a =>
      have ha := @List.find?_some (String × JVal)
        (fun p : String × JVal => p.1 == k) a d hfind
      have hak : a.1 = k := by simpa using ha
      have hne : ¬ (a.1 == k') = true := by
        simp [hak, h]
      simp [Option.map, hne]
  · rw [Bool.not_eq_true] at hf
    simp only [hf, Bool.false_eq_true, if_false]
    unfold Document.get
    rw [List.find?_append]
    have hsingle :
        List.find? (fun p : String × JVal => p.1 == k) [(k', v)] = none := by
      have hkk : ¬ ((k', v).1 == k) = true := by
        simp only [beq_iff_eq]
        exact Ne.symm h
      rw [@List.find?_cons_of_neg (String × JVal)
        (fun p : String × JVal => p.1 == k) (k', v) [] hkk]
      rfl
    rw [hsingle]
    cases List.find? (fun p : String × JVal => p.1 == k) d <;> rfl

theorem esFieldExists_get (d : Document) (k : String)
    (h : esFieldExists d k = true) : ∃ v, d.get k = some v := by
  unfold esFieldExists at h
  cases hg : d.get k with
  | none => rw [hg] at h; exact absurd h (by simp)
  | some v => exact ⟨v, rfl⟩

theorem esFieldExists_hasField (d : Document) (k : String)
    (h : esFieldExists d k = true) : d.hasField k = true := by
  obtain ⟨v, hv⟩ := esFieldExists_get d k h
  rw [hasField_eq_isSome_get, hv]
  rfl

theorem get_strip_set_status (doc : Document) (v' : JVal) :
    (((doc.erase "job_embedding").set "embedding_status" v').get
      "job_embedding") = none := by
  rw [get_set_ne _ _ _ _ (by decide), get_erase]

/-- The embedding-stripping guarantee of the job write path: whatever
document the write returns, a present `job_embedding` field passed the
comprehensive validation. -/
theorem jobWritten_embedding_valid (write : Document → WriteOutcome)
    (doc d : Document) (hok : index_job_document write doc = .ok d)
    (v : JVal) (hv : d.get "job_embedding" = some v) :
    validEmbeddingVal v = true := by
  unfold index_job_document at hok
  cases hg : doc.get "job_embedding" with
  | none =>
    simp only [hg] at hok
    cases hw : write doc with
    | accept =>
      simp only [hw] at hok
      obtain rfl : doc = d := by injection hok
      rw [hg] at hv
      exact absurd hv (by simp)
    | reject er msg =>
      simp only [hw] at hok
      by_cases her : er = true
      · simp only [her, if_true] at hok
        cases hw2 : write ((doc.erase "job_embedding").set "embedding_status"
            (.vstr "removed_due_to_indexing_error")) with
        | accept =>
          simp only [hw2] at hok
          obtain rfl := (Except.ok.inj hok)
          rw [get_strip_set_status] at hv
          exact absurd hv (by simp)
        | reject er2 msg2 => simp [hw2] at hok
      · simp only [her, if_false] at hok
        simp at hok
  | some v0 =>
    simp only [hg] at hok
    by_cases hval : validEmbeddingVal v0 = true
    · simp only [hval, Bool.not_true, Bool.false_eq_true, if_false] at hok
      cases hw : write doc with
      | accept =>
        simp only [hw] at hok
        obtain rfl : doc = d := by injection hok
        rw [hg] at hv
        obtain rfl := Option.some.inj hv
        exact hval
      | reject er msg =>
        simp only [hw] at hok
        by_cases her : er = true
        · simp only [her, if_true] at hok
          cases hw2 : write ((doc.erase "job_embedding").set "embedding_status"
              (.vstr "removed_due_to_indexing_error")) with
          | accept =>
            simp only [hw2] at hok
            obtain rfl := (Except.ok.inj hok)
            rw [get_strip_set_status] at hv
            exact absurd hv (by simp)
          | reject er2 msg2 => simp [hw2] at hok
        · simp only [her, if_false] at hok
          simp at hok
    · rw [Bool.not_eq_true] at hval
      simp only [hval, Bool.not_false, if_true] at hok
      cases hw : write ((doc.erase "job_embedding").set "embedding_status"
          (.vstr "invalid_embedding_removed")) with
      | accept =>
        simp only [hw] at hok
        obtain rfl := (Except.ok.inj hok)
        rw [get_strip_set_status] at hv
        exact absurd hv (by simp)
      | reject er msg =>
        simp only [hw] at hok
        by_cases her : er = true
        · simp only [her, if_true] at hok
          cases hw2 : write ((doc.erase "job_embedding").set "embedding_status"
              (.vstr "removed_due_to_indexing_error")) with
          | accept =>
            simp only [hw2] at hok
            obtain rfl := (Except.ok.inj hok)
            rw [get_strip_set_status] at hv
            exact absurd hv (by simp)
          | reject er2 msg2 => simp [hw2] at hok
        · simp only [her, if_false] at hok
          simp at hok

/-- The cv write path strips a falsy embedding value. -/
theorem cvWritten_falsy_stripped (write : Document → WriteOutcome)
    (doc d : Document) (v : JVal) (hok : index_cv_document write doc = .ok d)
    (hg : doc.get "cv_embedding" = some v) (hfalsy : pyTruthy v = false) :
    d.hasField "cv_embedding" = false := by
  unfold index_cv_document at hok
  by_cases h1 : doc.hasField "user_id" = true
  · by_cases h2 : doc.hasField "cv_text" = true
    · simp only [h1, h2, Bool.not_true, Bool.false_eq_true, if_false] at hok
      simp only [hg, hfalsy, Bool.not_false, if_true] at hok
      cases hw : write (doc.erase "cv_embedding") with
      | accept =>
        simp only [hw] at hok
        obtain rfl := (Except.ok.inj hok)
        exact hasField_erase doc "cv_embedding"
      | reject er msg => simp [hw] at hok
    · rw [Bool.not_eq_true] at h2
      simp [h1, h2] at hok
  · rw [Bool.not_eq_true] at h1
    simp [h1] at hok

/-- C1: the claim as stated is FALSE on the cv path: a cv document
whose embedding is a non-empty list with a null entry is written
successfully WITH the `cv_embedding` field still present — the cv write
path only tests truthiness, never the entries
(opensearch_manager.py:101). -/
theorem c1_counterexample :
    index_cv_document acceptAll cvDocNull = .ok cvDocNull ∧
    cvDocNull.get "cv_embedding" = some (.vlist [.vnull]) ∧
    cvDocNull.hasField "cv_embedding" = true :=
  ⟨rfl, rfl, rfl⟩

/-- C1 amended: documents written through `index_job_document` never
carry an invalid `embedding` field (empty, null-entry, non-numeric or
non-list values are stripped before the write); documents written
through `index_cv_document` are only guaranteed to lose a FALSY
(null or empty) embedding field — null or non-numeric entries inside a
non-empty cv embedding are persisted as-is. -/
theorem c1_embedding_invariant :
    (∀ (write : Document → WriteOutcome) (doc d : Document),
      index_job_document write doc = .ok d →
      ∀ v, d.get "job_embedding" = some v → validEmbeddingVal v = true) ∧
    (∀ (write : Document → WriteOutcome) (doc d : Document) (v : JVal),
      index_cv_document write doc = .ok d →
      doc.get "cv_embedding" = some v → pyTruthy v = false →
      d.hasField "cv_embedding" = false) :=
  ⟨jobWritten_embedding_valid, cvWritten_falsy_stripped⟩

theorem c1_embedding_invariant_witness :
    validEmbeddingVal (.vlist [.vnum 1]) = true ∧
    cvDocEmptyStored.hasField "cv_embedding" = false :=
  ⟨c1_embedding_invariant.1 acceptAll jobDocValid jobDocValid rfl
      (.vlist [.vnum 1]) rfl,
   c1_embedding_invariant.2 acceptAll cvDocEmpty cvDocEmptyStored
      (.vlist []) rfl rfl rfl⟩

/-! ### Handler path lemmas -/

theorem handler_cv_none (env : RecoEnv) (uid : String)
    (huid : (uid == "") = false)
    (h : get_cv_by_user_id env.cvStore = none) :
    handle_recommendation_request env (some uid) =
      ⟨404, [("error", .vstr "CV not found for this user. Please upload your CV first."),
             ("user_id", .vstr uid)]⟩ := by
  unfold handle_recommendation_request
  simp only [huid, Bool.false_eq_true, if_false, h]

theorem handler_no_embedding (env : RecoEnv) (uid : String) (cvdoc : Document)
    (huid : (uid == "") = false)
    (h : get_cv_by_user_id env.cvStore = some cvdoc)
    (hemb : pyTruthy ((cvdoc.get "cv_embedding").getD .vnull) = false) :
    handle_recommendation_request env (some uid) =
      ⟨400, [("error", .vstr "CV embedding not available. Please re-upload your CV."),
             ("user_id", .vstr uid)]⟩ := by
  unfold handle_recommendation_request
  simp only [huid, Bool.false_eq_true, if_false, h, hemb, Bool.not_false, if_true]

theorem handler_zero_hits (env : RecoEnv) (uid : String) (cvdoc : Document)
    (t took : Nat) (huid : (uid == "") = false)
    (h : get_cv_by_user_id env.cvStore = some cvdoc)
    (hemb : pyTruthy ((cvdoc.get "cv_embedding").getD .vnull) = true)
    (hsearch : search_similar_jobs env.engine
      ((cvdoc.get "cv_embedding").getD .vnull) 10 = .ok ⟨[], t, took⟩) :
    handle_recommendation_request env (some uid) =
      ⟨404, [("message", .vstr "No matching jobs found at the moment."),
             ("user_id", .vstr uid),
             ("recommendations", .vlist [])]⟩ := by
  unfold handle_recommendation_request
  simp only [huid, Bool.false_eq_true, if_false, h, hemb, Bool.not_true, hsearch,
    List.isEmpty_nil, if_true]

/-- C2: the claim as stated is FALSE: with the candidate lookup
succeeding and the similarity search returning zero hits, the handler
responds with HTTP status 404 — an error status code, not a non-error
one (Lambda_function-1.py:345). -/
theorem c2_counterexample :
    get_cv_by_user_id envZeroHits.cvStore =
      some [("user_id", .vstr "u1"), ("cv_embedding", .vlist [.vnum 1])] ∧
    search_similar_jobs envZeroHits.engine (.vlist [.vnum 1]) 10 =
      .ok ⟨[], 0, 0⟩ ∧
    (handle_recommendation_request envZeroHits (some "u1")).statusCode = 404 ∧
    ¬ ((handle_recommendation_request envZeroHits (some "u1")).statusCode < 400) :=
  ⟨rfl, rfl, rfl, by decide⟩

/-- C2 amended: zero hits produce an explicit empty-result body — a
"message" field, an empty "recommendations" list and no "error" field —
but carried on HTTP status 404, an error status code, not a non-error
one. -/
theorem c2_zero_hits_response (env : RecoEnv) (uid : String) (cvdoc : Document)
    (t took : Nat) (huid : uid ≠ "")
    (h : get_cv_by_user_id env.cvStore = some cvdoc)
    (hemb : pyTruthy ((cvdoc.get "cv_embedding").getD .vnull) = true)
    (hsearch : search_similar_jobs env.engine
      ((cvdoc.get "cv_embedding").getD .vnull) 10 = .ok ⟨[], t, took⟩) :
    handle_recommendation_request env (some uid) =
      ⟨404, [("message", .vstr "No matching jobs found at the moment."),
             ("user_id", .vstr uid),
             ("recommendations", .vlist [])]⟩ :=
  handler_zero_hits env uid cvdoc t took (by simpa using huid) h hemb hsearch

theorem c2_zero_hits_response_witness :
    handle_recommendation_request envZeroHits (some "u1") =
      ⟨404, [("message", .vstr "No matching jobs found at the moment."),
             ("user_id", .vstr "u1"),
             ("recommendations", .vlist [])]⟩ :=
  c2_zero_hits_response envZeroHits "u1"
    [("user_id", .vstr "u1"), ("cv_embedding", .vlist [.vnum 1])] 0 0
    (by decide) rfl rfl rfl

/-- C3: the claim as stated is FALSE: a candidate present in the store
without a usable embedding is answered with HTTP status 400, not 404
(Lambda_function-1.py:336). -/
theorem c3_counterexample :
    get_cv_by_user_id envNoEmbedding.cvStore = some [("user_id", .vstr "u1")] ∧
    (handle_recommendation_request envNoEmbedding (some "u1")).statusCode = 400 ∧
    (handle_recommendation_request envNoEmbedding (some "u1")).statusCode ≠ 404 :=
  ⟨rfl, rfl, by decide⟩

/-- C3 amended: a candidate found without a usable (truthy) embedding
is answered with HTTP status 400 and the guidance message telling the
caller to re-upload the CV. -/
theorem c3_missing_embedding_response (env : RecoEnv) (uid : String)
    (cvdoc : Document) (huid : uid ≠ "")
    (h : get_cv_by_user_id env.cvStore = some cvdoc)
    (hemb : pyTruthy ((cvdoc.get "cv_embedding").getD .vnull) = false) :
    handle_recommendation_request env (some uid) =
      ⟨400, [("error", .vstr "CV embedding not available. Please re-upload your CV."),
             ("user_id", .vstr uid)]⟩ :=
  handler_no_embedding env uid cvdoc (by simpa using huid) h hemb

theorem c3_missing_embedding_response_witness :
    handle_recommendation_request envNoEmbedding (some "u1") =
      ⟨400, [("error", .vstr "CV embedding not available. Please re-upload your CV."),
             ("user_id", .vstr "u1")]⟩ :=
  c3_missing_embedding_response envNoEmbedding "u1" [("user_id", .vstr "u1")]
    (by decide) rfl rfl

/-- C10: any internal failure of the candidate point-lookup — the index
existence check raising, or the search raising (an unreachable store) —
makes `get_cv_by_user_id` return the not-found value instead of
raising, and the recommendation handler then reports the 404 not-found
response with the upload guidance, indistinguishable from a missing
candidate, rather than a 5xx error. -/
theorem c10_store_failure_is_not_found (store : CvStore) (eng : EngineState)
    (uid e : String) (huid : uid ≠ "")
    (hfail : store.indexCheck = .error e ∨
      (store.indexCheck = .ok true ∧ store.searchOutcome = .error e)) :
    get_cv_by_user_id store = none ∧
    handle_recommendation_request ⟨store, eng⟩ (some uid) =
      ⟨404, [("error", .vstr "CV not found for this user. Please upload your CV first."),
             ("user_id", .vstr uid)]⟩ := by
  have hnone : get_cv_by_user_id store = none := by
    unfold get_cv_by_user_id
    rcases hfail with hidx | ⟨hidx, hsearch⟩
    · rw [hidx]
    · rw [hidx, hsearch]
  exact ⟨hnone, handler_cv_none ⟨store, eng⟩ uid (by simpa using huid) hnone⟩

theorem c10_store_failure_is_not_found_witness :
    get_cv_by_user_id cvStoreDown = none ∧
    handle_recommendation_request ⟨cvStoreDown, engineEmpty⟩ (some "u1") =
      ⟨404, [("error", .vstr "CV not found for this user. Please upload your CV first."),
             ("user_id", .vstr "u1")]⟩ :=
  c10_store_failure_is_not_found cvStoreDown engineEmpty "u1"
    "ConnectionError: index store unreachable" (by decide) (Or.inl rfl)

/-! ### Degraded search paths (C4) -/

theorem searchPrimary_error (st : EngineState) (emb : JVal) (size : Nat)
    (h : pyTruthy emb = false ∨ st.infoFails = true ∨ st.searchFails = true) :
    ∃ e, searchPrimary st emb size = .error e := by
  unfold searchPrimary
  by_cases ht : pyTruthy emb = true
  · simp only [ht, Bool.not_true, Bool.false_eq_true, if_false]
    cases hl : pyLen emb with
    | none => exact ⟨_, rfl⟩
    | some n =>
      by_cases hi : st.infoFails = true
      · simp only [hi, if_true]
        exact ⟨_, rfl⟩
      · rw [Bool.not_eq_true] at hi
        rcases h with h | h | h
        · rw [ht] at h; exact absurd h (by simp)
        · rw [hi] at h; exact absurd h (by simp)
        · simp only [hi, Bool.false_eq_true, if_false, h, if_true]
          exact ⟨_, rfl⟩
  · rw [Bool.not_eq_true] at ht
    simp only [ht, Bool.not_false, if_true]
    exact ⟨_, rfl⟩

theorem search_fallback_of_error (st : EngineState) (emb : JVal) (size : Nat)
    (hfb : st.fallbackFails = false)
    (h : pyTruthy emb = false ∨ st.infoFails = true ∨ st.searchFails = true) :
    search_similar_jobs st emb size =
      .ok ⟨matchAllHits st size, st.docs.length, 0⟩ := by
  obtain ⟨e, he⟩ := searchPrimary_error st emb size h
  unfold search_similar_jobs
  rw [he]
  simp [hfb]

theorem search_no_knn_support (st : EngineState) (emb : JVal) (size : Nat)
    (ht : pyTruthy emb = true) (hl : (pyLen emb).isSome = true)
    (hi : st.infoFails = false) (hs : st.searchFails = false)
    (hv : versionSupportsKnn st.version = false) :
    search_similar_jobs st emb size =
      .ok ⟨existsHits st size, countWithEmbedding st, 0⟩ := by
  obtain ⟨n, hn⟩ := Option.isSome_iff_exists.mp hl
  unfold search_similar_jobs searchPrimary
  simp only [ht, Bool.not_true, Bool.false_eq_true, if_false, hn, hi, hs, hv]

theorem existsHits_no_embedding_field (st : EngineState) (size : Nat) :
    ∀ h ∈ existsHits st size, h.source.hasField "job_embedding" = false := by
  intro h hh
  unfold existsHits at hh
  obtain ⟨p, _, rfl⟩ := List.mem_map.mp hh
  exact hasField_erase p.2 "job_embedding"

theorem matchAllHits_no_embedding_field (st : EngineState) (size : Nat) :
    ∀ h ∈ matchAllHits st size, h.source.hasField "job_embedding" = false := by
  intro h hh
  unfold matchAllHits at hh
  obtain ⟨p, _, rfl⟩ := List.mem_map.mp hh
  exact hasField_erase p.2 "job_embedding"

/-- C4: the claim as stated is FALSE: on an engine without native
vector similarity (version 1.0.0) and with the older posting stored
first, a limit-1 search returns the OLDER posting (store order), not
the most-recently-scraped one the claim promises. -/
theorem c4_counterexample :
    versionSupportsKnn stOldVersion.version = false ∧
    hitsSources (search_similar_jobs stOldVersion (.vlist [.vnum 1]) 1) =
      [[("job_id", .vstr "old"), ("scraped_date", .vnum 1)]] ∧
    mostRecentlyScraped stOldVersion.docs 1 =
      [[("job_id", .vstr "new"), ("scraped_date", .vnum 2)]] ∧
    hitsSources (search_similar_jobs stOldVersion (.vlist [.vnum 1]) 1) ≠
      mostRecentlyScraped stOldVersion.docs 1 := by
  refine ⟨rfl, rfl, rfl, ?_⟩
  intro h
  have h2 : (1 : ℚ) = 2 :=
    congrArg (fun l : List Document => scrapedDateOf (l.headD [])) h
  exact absurd h2 (by norm_num)

/-- C4 amended: when the capability check reports an engine without
native vector similarity, `search_similar_jobs` succeeds and returns up
to `limit` job postings THAT HAVE embeddings, in store order (no
recency sort), embeddings excluded from the projection; when the
capability check or the vector query raises (and the fallback search
itself succeeds), it succeeds and returns up to `limit` arbitrary job
postings (match_all, store order, no recency sort), embeddings
excluded.  Neither degraded path returns the most-recently-scraped
postings. -/
theorem c4_degraded_paths :
    (∀ (st : EngineState) (emb : JVal) (size : Nat),
      pyTruthy emb = true → (pyLen emb).isSome = true →
      st.infoFails = false → st.searchFails = false →
      versionSupportsKnn st.version = false →
      search_similar_jobs st emb size =
        .ok ⟨existsHits st size, countWithEmbedding st, 0⟩ ∧
      (∀ h ∈ existsHits st size, h.source.hasField "job_embedding" = false) ∧
      (existsHits st size).length ≤ size) ∧
    (∀ (st : EngineState) (emb : JVal) (size : Nat),
      st.fallbackFails = false →
      (pyTruthy emb = false ∨ st.infoFails = true ∨ st.searchFails = true) →
      search_similar_jobs st emb size =
        .ok ⟨matchAllHits st size, st.docs.length, 0⟩ ∧
      (∀ h ∈ matchAllHits st size, h.source.hasField "job_embedding" = false) ∧
      (matchAllHits st size).length ≤ size) := by
  constructor
  · intro st emb size ht hl hi hs hv
    refine ⟨search_no_knn_support st emb size ht hl hi hs hv,
      existsHits_no_embedding_field st size, ?_⟩
    unfold existsHits
    rw [List.length_map, List.length_take]
    exact min_le_left _ _
  · intro st emb size hfb h
    refine ⟨search_fallback_of_error st emb size hfb h,
      matchAllHits_no_embedding_field st size, ?_⟩
    unfold matchAllHits
    rw [List.length_map, List.length_take]
    exact min_le_left _ _

theorem c4_degraded_paths_witness :
    (search_similar_jobs stOldVersion (.vlist [.vnum 1]) 1 =
      .ok ⟨existsHits stOldVersion 1, countWithEmbedding stOldVersion, 0⟩ ∧
     (∀ h ∈ existsHits stOldVersion 1,
        h.source.hasField "job_embedding" = false) ∧
     (existsHits stOldVersion 1).length ≤ 1) ∧
    (search_similar_jobs stInfoDown (.vlist [.vnum 1]) 2 =
      .ok ⟨matchAllHits stInfoDown 2, stInfoDown.docs.length, 0⟩ ∧
     (∀ h ∈ matchAllHits stInfoDown 2,
        h.source.hasField "job_embedding" = false) ∧
     (matchAllHits stInfoDown 2).length ≤ 2) :=
  ⟨c4_degraded_paths.1 stOldVersion (.vlist [.vnum 1]) 1 rfl rfl rfl rfl rfl,
   c4_degraded_paths.2 stInfoDown (.vlist [.vnum 1]) 2 rfl (Or.inr (Or.inl rfl))⟩

/-! ### Vector-hit exclusion (C6) -/

theorem search_knn_path (st : EngineState) (emb : JVal) (size : Nat)
    (ht : pyTruthy emb = true) (hl : (pyLen emb).isSome = true)
    (hi : st.infoFails = false) (hs : st.searchFails = false)
    (hv : versionSupportsKnn st.version = true) :
    search_similar_jobs st emb size =
      .ok ⟨knnHits st size, countWithEmbedding st, 0⟩ := by
  obtain ⟨n, hn⟩ := Option.isSome_iff_exists.mp hl
  unfold search_similar_jobs searchPrimary
  simp only [ht, Bool.not_true, Bool.false_eq_true, if_false, hn, hi, hs, hv,
    if_true]

theorem knnHits_from_embedded_doc (st : EngineState) (size : Nat) :
    ∀ h ∈ knnHits st size, ∃ p ∈ st.docs,
      esFieldExists p.2 "job_embedding" = true ∧
      h.source = p.2.erase "job_embedding" := by
  intro h hh
  unfold knnHits at hh
  obtain ⟨p, hp, rfl⟩ := List.mem_map.mp hh
  have hp2 := List.mem_of_mem_take hp
  rw [List.mem_insertionSort] at hp2
  have hf := List.mem_filter.mp hp2
  exact ⟨p, hf.1, hf.2, rfl⟩

/-- C6: on a KNN-capable engine with a healthy capability check and
query, every vector-similarity hit of `search_similar_jobs` comes from
a stored document that possesses a `job_embedding` field — and, when
the stored documents satisfy the write-path invariant, one whose
embedding is valid; documents lacking such a field never appear among
the hits, rather than being scored zero. -/
theorem c6_vector_hits_have_embeddings (st : EngineState) (emb : JVal)
    (size : Nat)
    (ht : pyTruthy emb = true) (hl : (pyLen emb).isSome = true)
    (hi : st.infoFails = false) (hs : st.searchFails = false)
    (hv : versionSupportsKnn st.version = true)
    (hinv : ∀ p ∈ st.docs, embInvariant p.2 = true)
    (_hex : ∃ p ∈ st.docs, esFieldExists p.2 "job_embedding" = true) :
    search_similar_jobs st emb size =
      .ok ⟨knnHits st size, countWithEmbedding st, 0⟩ ∧
    ∀ h ∈ knnHits st size, ∃ p ∈ st.docs,
      p.2.hasField "job_embedding" = true ∧
      (∃ v, p.2.get "job_embedding" = some v ∧ validEmbeddingVal v = true) ∧
      h.source = p.2.erase "job_embedding" := by
  refine ⟨search_knn_path st emb size ht hl hi hs hv, ?_⟩
  intro h hh
  obtain ⟨p, hpd, hpe, hsrc⟩ := knnHits_from_embedded_doc st size h hh
  obtain ⟨v, hvv⟩ := esFieldExists_get p.2 "job_embedding" hpe
  have hval : validEmbeddingVal v = true := by
    have := hinv p hpd
    unfold embInvariant at this
    rw [hvv] at this
    exact this
  exact ⟨p, hpd, esFieldExists_hasField p.2 "job_embedding" hpe,
    ⟨v, hvv, hval⟩, hsrc⟩

theorem c6_vector_hits_have_embeddings_witness :
    search_similar_jobs stKnn (.vlist [.vnum 1]) 10 =
      .ok ⟨knnHits stKnn 10, countWithEmbedding stKnn, 0⟩ ∧
    ∀ h ∈ knnHits stKnn 10, ∃ p ∈ stKnn.docs,
      p.2.hasField "job_embedding" = true ∧
      (∃ v, p.2.get "job_embedding" = some v ∧ validEmbeddingVal v = true) ∧
      h.source = p.2.erase "job_embedding" :=
  c6_vector_hits_have_embeddings stKnn (.vlist [.vnum 1]) 10 rfl rfl rfl rfl
    rfl (by decide) (by decide)

/-! ### Embedding provider retry and fallover (C5) -/

theorem bedrockAttempt_some_valid (oracle : Bedrock) (model : String)
    (text : PyStr) (a : Nat) (xs : List JVal)
    (h : bedrockAttempt oracle model text a = some xs) :
    validEmbeddingVal (.vlist xs) = true := by
  unfold bedrockAttempt at h
  cases ho : oracle model text a with
  | none => rw [ho] at h; exact absurd h (by simp)
  | some v =>
    rw [ho] at h
    cases v with
    | vlist ys =>
      by_cases hv : validEmbeddingVal (.vlist ys) = true
      · simp only [hv, if_true] at h
        obtain rfl := Option.some.inj h
        exact hv
      · rw [Bool.not_eq_true] at hv
        simp [hv] at h
    | vnull => exact absurd h (by simp)
    | vbool b => exact absurd h (by simp)
    | vnum q => exact absurd h (by simp)
    | vstr s => exact absurd h (by simp)
    | vobj fs => exact absurd h (by simp)

theorem callBedrockGo_ok_valid (oracle : Bedrock) (model : String)
    (text : PyStr) :
    ∀ (r a : Nat) (xs : List JVal),
      (callBedrockGo oracle model text r a).1 = .ok xs →
      validEmbeddingVal (.vlist xs) = true := by
  intro r
  induction r with
  | zero =>
    intro a xs h
    simp [callBedrockGo] at h
  | succ n ih =>
    intro a xs h
    unfold callBedrockGo at h
    cases hb : bedrockAttempt oracle model text a with
    | some ys =>
      rw [hb] at h
      have hys := bedrockAttempt_some_valid oracle model text a ys hb
      obtain rfl : ys = xs := Except.ok.inj h
      exact hys
    | none =>
      rw [hb] at h
      by_cases hn : (n == 0) = true
      · simp only [hn, if_true] at h
        exact absurd h (by simp)
      · rw [Bool.not_eq_true] at hn
        simp only [hn, Bool.false_eq_true, if_false] at h
        exact ih (a + 1) xs h

theorem call_bedrock_three_failures (oracle : Bedrock) (model : String)
    (text : PyStr)
    (h : ∀ i, i < 3 → (bedrockAttempt oracle model text i).isNone = true) :
    call_bedrock oracle model text 3 = (.error "All attempts failed", [1, 2]) := by
  have h0 := Option.isNone_iff_eq_none.mp (h 0 (by norm_num))
  have h1 := Option.isNone_iff_eq_none.mp (h 1 (by norm_num))
  have h2 := Option.isNone_iff_eq_none.mp (h 2 (by norm_num))
  simp [call_bedrock, callBedrockGo, h0, h1, h2]

/-- C5: the claim as stated is FALSE: with the primary (v2) model
failing every attempt and the secondary (v1) model succeeding, a
generation request still surfaces the error — `generate_embedding`
retries only the already-selected `current_model` and never falls over
to the secondary model identifier (embedding_service.py:130). -/
theorem c5_counterexample :
    generate_embedding bedrockV2Down serviceOnV2 "hello world".toList =
      .error "All attempts failed" ∧
    (call_bedrock bedrockV2Down "amazon.titan-embed-text-v1"
      (pyStrip "hello world".toList) 3).1 = .ok [.vnum 1, .vnum 2] :=
  ⟨rfl, rfl⟩

/-- C5 amended: the adapter retries a failing model identifier up to 3
attempts with exponential backoff (sleeping 1 then 2 seconds), and the
fallover from the primary to the secondary model identifier happens
ONCE, at service initialization, where each candidate gets the same
3-attempt policy; a generation request afterwards retries only the
selected current model and surfaces the failure without consulting the
other model identifier. -/
theorem c5_retry_and_fallover :
    (∀ (oracle : Bedrock) (model : String) (text : PyStr),
      (∀ i, i < 3 → (bedrockAttempt oracle model text i).isNone = true) →
      call_bedrock oracle model text 3 = (.error "All attempts failed", [1, 2])) ∧
    (∀ oracle : Bedrock,
      (∀ i, i < 3 →
        (bedrockAttempt oracle "amazon.titan-embed-text-v2:0"
          "test".toList i).isNone = true) →
      ∀ xs, (call_bedrock oracle "amazon.titan-embed-text-v1" "test".toList 3).1 = .ok xs →
      chooseModel oracle = .ok ("amazon.titan-embed-text-v1", xs.length)) ∧
    (∀ (oracle : Bedrock) (st : ServiceState) (text t : PyStr) (e : String),
      prepare_text text = .ok t →
      (call_bedrock oracle st.current_model t 3).1 = .error e →
      generate_embedding oracle st text = .error e) := by
  refine ⟨call_bedrock_three_failures, ?_, ?_⟩
  · intro oracle hfail xs hok
    have hv2 := call_bedrock_three_failures oracle "amazon.titan-embed-text-v2:0"
      "test".toList hfail
    have hv2x : (call_bedrock oracle "amazon.titan-embed-text-v2:0"
        "test".toList 3).1 = .error "All attempts failed" := by
      rw [hv2]
    have hval := callBedrockGo_ok_valid oracle "amazon.titan-embed-text-v1"
      "test".toList 3 0 xs hok
    have hne : xs.isEmpty = false := by
      unfold validEmbeddingVal at hval
      have hand := (Bool.and_eq_true _ _).mp hval
      rw [← Bool.not_eq_true]
      intro hemp
      rw [hemp] at hand
      exact absurd hand.1 (by simp)
    simp only [chooseModel, model_ids, chooseModelFrom, hv2x, hok, hne,
      Bool.false_eq_true, if_false]
  · intro oracle st text t e hprep hcall
    unfold generate_embedding
    simp only [hprep, hcall]

theorem c5_retry_and_fallover_witness :
    call_bedrock bedrockDown "amazon.titan-embed-text-v2:0"
      "hello world".toList 3 = (.error "All attempts failed", [1, 2]) ∧
    chooseModel bedrockV2Down = .ok ("amazon.titan-embed-text-v1", 2) ∧
    generate_embedding bedrockDown serviceOnV2 "hello world".toList =
      .error "All attempts failed" :=
  ⟨c5_retry_and_fallover.1 bedrockDown "amazon.titan-embed-text-v2:0"
      "hello world".toList (by decide),
   c5_retry_and_fallover.2.1 bedrockV2Down (by decide) [.vnum 1, .vnum 2] rfl,
   c5_retry_and_fallover.2.2 bedrockDown serviceOnV2 "hello world".toList
      (pyStrip "hello world".toList) "All attempts failed" rfl rfl⟩

/-! ### Job id generation (C7) -/

/-- C7: the job id generator is deterministic in (title, company,
discriminator) and ignores the description: two scraped cards equal on
title, company and url receive the same id whatever their
descriptions; and for any digest function with the md5 hexdigest output
length (32 characters) the id has fixed length 16. -/
theorem c7_job_id_deterministic :
    (∀ (hash : PyStr → PyStr) (c1 c2 : RawCard),
      c1.title = c2.title → c1.company = c2.company → c1.job_url = c2.job_url →
      card_job_id hash c1 = card_job_id hash c2) ∧
    (∀ hash : PyStr → PyStr, (∀ s, (hash s).length = 32) →
      ∀ c : RawCard, (card_job_id hash c).length = 16) := by
  constructor
  · intro hash c1 c2 h1 h2 h3
    unfold card_job_id generate_job_id
    rw [h1, h2, h3]
  · intro hash hlen c
    unfold card_job_id generate_job_id
    rw [List.length_take, hlen]
    decide

theorem c7_job_id_deterministic_witness :
    card_job_id hash32 cardA = card_job_id hash32 cardB ∧
    (card_job_id hash32 cardA).length = 16 :=
  ⟨c7_job_id_deterministic.1 hash32 cardA cardB rfl rfl rfl,
   c7_job_id_deterministic.2 hash32 (fun _ => rfl) cardA⟩

/-! ### Truncation boundary (C8) -/

theorem pyStrip_length_le (s : PyStr) : (pyStrip s).length ≤ s.length := by
  unfold pyStrip
  rw [List.length_reverse]
  calc ((s.dropWhile isPySpace).reverse.dropWhile isPySpace).length
      ≤ (s.dropWhile isPySpace).reverse.length :=
        (List.dropWhile_sublist _).length_le
    _ = (s.dropWhile isPySpace).length := List.length_reverse _
    _ ≤ s.length := (List.dropWhile_sublist _).length_le

/-- C8: the claim as stated is FALSE in its middle conjunct: a text of
length at most 8000 that carries surrounding whitespace is NOT
submitted unchanged — it is trimmed first (embedding_service.py:119). -/
theorem c8_counterexample :
    "  hello  ".toList.length ≤ 8000 ∧
    prepare_text "  hello  ".toList = .ok "hello".toList ∧
    "hello".toList ≠ "  hello  ".toList :=
  ⟨by decide, rfl, by decide⟩

/-- C8 amended: every accepted text is submitted with at most 8003
characters (in particular any length-9000 input); a text of length at
most 8000 is submitted as its TRIMMED form (so unchanged only when
already trimmed); and a text whose trimmed form is shorter than 5
characters is rejected with an error rather than submitted. -/
theorem c8_truncation_boundary :
    (∀ text t : PyStr, prepare_text text = .ok t → t.length ≤ 8003) ∧
    (∀ text t : PyStr, text.length ≤ 8000 → prepare_text text = .ok t →
      t = pyStrip text) ∧
    (∀ text : PyStr, (pyStrip text).length < 5 →
      prepare_text text = .error "Text too short for embedding generation") := by
  refine ⟨?_, ?_, ?_⟩
  · intro text t h
    unfold prepare_text at h
    split at h
    · exact absurd h (by simp)
    · split at h
      · obtain rfl := Except.ok.inj h
        rename_i hlong
        rw [List.length_append, List.length_take]
        have : min 8000 (pyStrip text).length = 8000 :=
          min_eq_left (le_of_lt hlong)
        rw [this]
        norm_num
      · obtain rfl := Except.ok.inj h
        rename_i hshort
        omega
  · intro text t hlen h
    unfold prepare_text at h
    split at h
    · exact absurd h (by simp)
    · split at h
      · rename_i hlong
        have := pyStrip_length_le text
        omega
      · exact (Except.ok.inj h).symm
  · intro text h
    unfold prepare_text
    have hcond : (text.isEmpty || decide ((pyStrip text).length < 5)) = true := by
      simp [h]
    rw [if_pos hcond]

theorem c8_truncation_boundary_witness :
    "hello world".toList.length ≤ 8003 ∧
    "hello".toList = pyStrip " hello ".toList ∧
    prepare_text "hi".toList = .error "Text too short for embedding generation" :=
  ⟨c8_truncation_boundary.1 "hello world".toList "hello world".toList rfl,
   c8_truncation_boundary.2.1 " hello ".toList "hello".toList (by decide) rfl,
   c8_truncation_boundary.2.2 "hi".toList (by decide)⟩

/-! ### Match percentage (C9) -/

theorem pyInt_mono {s t : ℚ} (h : s ≤ t) : pyInt s ≤ pyInt t := by
  unfold pyInt
  by_cases hs : s < 0
  · by_cases ht : t < 0
    · simp only [hs, ht, if_true]
      exact Int.ceil_le_ceil h
    · simp only [hs, ht, if_true, if_false]
      have h1 : (⌈s⌉ : ℤ) ≤ 0 := by
        rw [Int.ceil_le]
        push_cast
        exact le_of_lt hs
      have h2 : (0 : ℤ) ≤ ⌊t⌋ := by
        rw [Int.le_floor]
        push_cast
        exact le_of_not_lt ht
      omega
  · have hnt : ¬ t < 0 := fun ht => hs (lt_of_le_of_lt h ht)
    simp only [hs, hnt, if_false]
    exact Int.floor_le_floor h

/-- C9: the match percentage `min(100, max(0, int(score * 10)))` is
clamped to [0, 100] and is monotonically non-decreasing in the raw
similarity score, and it is exactly the value the handler places into
each assembled recommendation record. -/
theorem c9_match_percentage_bounds_monotone :
    (∀ s : ℚ, 0 ≤ matchPercentage s ∧ matchPercentage s ≤ 100) ∧
    (∀ s t : ℚ, s ≤ t → matchPercentage s ≤ matchPercentage t) ∧
    (∀ h : Hit, (mkRecommendation h).get "match_percentage" =
      some (.vnum (matchPercentage h.score : ℚ))) := by
  refine ⟨?_, ?_, ?_⟩
  · intro s
    unfold matchPercentage
    constructor
    · exact le_min (by norm_num) (le_max_left 0 _)
    · exact min_le_left _ _
  · intro s t h
    unfold matchPercentage
    have hmul : s * 10 ≤ t * 10 := mul_le_mul_of_nonneg_right h (by norm_num)
    exact min_le_min (le_refl 100) (max_le_max (le_refl 0) (pyInt_mono hmul))
  · intro h
    rfl

theorem c9_match_percentage_bounds_monotone_witness :
    (0 ≤ matchPercentage (37/10) ∧ matchPercentage (37/10) ≤ 100) ∧
    matchPercentage 3 ≤ matchPercentage (37/10) :=
  ⟨c9_match_percentage_bounds_monotone.1 (37/10),
   c9_match_percentage_bounds_monotone.2.1 3 (37/10) (by norm_num)⟩

end JobRec
